import Mathlib

/-!
Verification development for the nova-autopilot orchestration core.

The Python sources (nova_autopilot/models.py and nova_autopilot/autopilot.py)
are shallowly embedded here.  External collaborators (the browser-automation
SDK handle, the LLM client, the JSON parser and the schema validator) are
modelled as behavior records whose fallible calls return values of type
Except String: a value .error e stands for the call raising an exception
whose str() is e, and .ok v for a normal return of v.  The retry loop of
AutoPilot.execute is instrumented with the number of act calls it makes.
Wall-clock fields (execution_time, started_at, completed_at, timestamp,
total_execution_time, extraction_time) are real-time observations and are
omitted from the embedded records; no claim mentions them.
-/

namespace NovaAutopilot

/-- A Python value as seen by the orchestrator: JSON-like data plus binary
blobs (screenshots).  Numbers are modelled as integers; no claim inspects
numeric payloads. -/
inductive Val where
  | null : Val
  | bool : Bool → Val
  | num : Int → Val
  | str : String → Val
  | arr : List Val → Val
  | obj : List (String × Val) → Val
  | bytes : List Nat → Val
deriving Repr

/-- Python truthiness of a value: None, False, 0, empty string, empty list,
empty dict and empty bytes are falsy. -/
def Val.truthy : Val → Bool
  | .null => false
  | .bool b => b
  | .num n => n != 0
  | .str s => s != ""
  | .arr xs => !xs.isEmpty
  | .obj kvs => !kvs.isEmpty
  | .bytes bs => !bs.isEmpty

/-- models.py ActionStep (timestamp omitted; it is a wall-clock default). -/
structure ActionStep where
  action : String
  target : Option String := none
  value : Option String := none
  success : Bool := true
  screenshot : Option Val := none
deriving Repr

/-- models.py TaskPlan. -/
structure TaskPlan where
  task : String
  steps : List ActionStep := []
  estimated_duration : Float := 0.0
  requires_auth : Bool := false
  human_review_needed : Bool := false

/-- models.py TaskResult (timestamps and execution_time omitted). -/
structure TaskResult where
  success : Bool
  data : Option Val := none
  error : Option String := none
  screenshots : List Val := []
  steps_taken : List String := []
deriving Repr

/-- models.py ExtractResult (extraction_time omitted).  The data field
defaults to an empty dict, as in the dataclass default_factory. -/
structure ExtractResult where
  success : Bool
  data : Val := .obj []
  source_url : Option String := none
  schema_validated : Bool := false
  error : Option String := none
deriving Repr

/-- models.py ChainResult (total_execution_time omitted). -/
structure ChainResult where
  success : Bool
  results : List TaskResult := []
  tasks_completed : Nat := 0
  tasks_failed : Nat := 0
deriving Repr

/-- models.py ChainResult.all_succeeded:
tasks_failed == 0 and tasks_completed > 0. -/
def ChainResult.all_succeeded (c : ChainResult) : Bool :=
  c.tasks_failed == 0 && decide (0 < c.tasks_completed)

/-- Configuration fixed at AutoPilot construction (autopilot.py AutoPilot
init).  region and model_id only select the external LLM endpoint and are
irrelevant to the embedded control flow. -/
structure AutoPilotCfg where
  headless : Bool := true
  timeout : Nat := 60
  max_retries : Nat := 3

/-- Behavior of an opened browser session handle.  act takes the task string
and the attempt index (the same task is re-sent on every retry; distinct
attempts may behave differently).  screenshot models nova.screenshot().
stop models the nova.stop() call that the browser-session context manager
runs in a finally block at with-exit (autopilot.py line 104): when it
raises, the exception propagates out of the with statement into the outer
except of execute. -/
structure SessionHandle where
  act : String → Nat → Except String Val
  screenshot : Except String Val
  stop : Except String Unit

/-- Collaborator behavior for one call to AutoPilot.execute: the outcome of
obtaining a TaskPlan and the outcome of opening the browser session (a
handle that carries its own act, screenshot and teardown outcomes).  The
concrete planner embedded below never raises, but the try block of execute would
also catch a raising planner, so the planning outcome is allowed to be an
error here.  A session whose construction or start hook raises is an
openSession error; a session that opens but whose stop hook raises at
teardown is an ok handle with an erroring stop. -/
structure ExecBehavior where
  planOut : Except String TaskPlan
  openSession : Except String SessionHandle

/-- The body run on a successful act attempt (autopilot.py lines 215-227):
mark success, store the returned data and the step action names of the plan,
and, when requested, capture a screenshot, swallowing screenshot failures
and dropping falsy screenshots. -/
def onSuccess (sess : SessionHandle) (plan : TaskPlan)
    (capture_screenshots : Bool) (v : Val) (res : TaskResult) : TaskResult :=
  let r1 : TaskResult :=
    { res with success := true, data := some v,
               steps_taken := plan.steps.map (fun s => s.action) }
  if capture_screenshots then
    match sess.screenshot with
    | .ok shot =>
      if shot.truthy then
        { r1 with screenshots := r1.screenshots ++ [shot] }
      else r1
    | .error _ => r1
  else r1

/-- The attempt loop of AutoPilot.execute (autopilot.py lines 211-234):
for attempt in range(max_retries), call act; on success run onSuccess and
stop; on failure record the error string only when
attempt == max_retries - 1.  Arguments: current attempt index, number of
remaining iterations, result record so far.  Returns the final record and
the number of act calls made. -/
def actLoop (sess : SessionHandle) (task : String) (plan : TaskPlan)
    (capture_screenshots : Bool) :
    Nat → Nat → TaskResult → TaskResult × Nat
  | _, 0, res => (res, 0)
  | attempt, rest + 1, res =>
    match sess.act task attempt with
    | .ok v => (onSuccess sess plan capture_screenshots v res, 1)
    | .error e =>
      let r1 : TaskResult :=
        if rest = 0 then { res with error := some e } else res
      let next := actLoop sess task plan capture_screenshots (attempt + 1) rest r1
      (next.1, next.2 + 1)

/-- AutoPilot.execute (autopilot.py lines 182-243), instrumented with the
number of act calls.  The result starts as TaskResult(success=False); an
exception escaping planning or session opening is caught by the outer
try/except and stored in the error field; otherwise the attempt loop runs
and then the context manager runs nova.stop() at with-exit (autopilot.py
line 104); if stop raises, that exception also reaches the outer except
(autopilot.py line 236) and overwrites the error field of the result
accumulated by the loop, after success may already have been set. -/
def executeInstr (cfg : AutoPilotCfg) (beh : ExecBehavior) (task : String)
    (capture_screenshots : Bool) : TaskResult × Nat :=
  let res : TaskResult := { success := false }
  match beh.planOut with
  | .error e => ({ res with error := some e }, 0)
  | .ok plan =>
    match beh.openSession with
    | .error e => ({ res with error := some e }, 0)
    | .ok sess =>
      let body := actLoop sess task plan capture_screenshots 0 cfg.max_retries res
      match sess.stop with
      | .ok _ => body
      | .error e => ({ body.1 with error := some e }, body.2)

/-- The TaskResult returned by AutoPilot.execute. -/
def execute (cfg : AutoPilotCfg) (beh : ExecBehavior) (task : String)
    (capture_screenshots : Bool) : TaskResult :=
  (executeInstr cfg beh task capture_screenshots).1

/-- The number of act calls AutoPilot.execute makes. -/
def execActCalls (cfg : AutoPilotCfg) (beh : ExecBehavior) (task : String)
    (capture_screenshots : Bool) : Nat :=
  (executeInstr cfg beh task capture_screenshots).2

/-- One step object of the JSON plan returned by the LLM: s.get of action,
target and value with absent keys as none. -/
structure PlanStepData where
  action : Option String := none
  target : Option String := none
  value : Option String := none

/-- The JSON plan object returned by the LLM, with plan_data.get defaults
modelled by Option fields. -/
structure PlanData where
  steps : Option (List PlanStepData) := none
  estimated_duration : Option Float := none
  requires_auth : Option Bool := none
  human_review_needed : Option Bool := none

/-- Behavior of the Bedrock LLM collaborator inside the planning try block:
the invoke_model call, json.loads on the response body, the
content[0].text access, and json.loads on that text (folding the dict
shape checks of the subsequent .get calls into the last parse). -/
structure BedrockBehavior where
  invoke_model : Except String Val
  envelopeLoads : Val → Except String Val
  contentText : Val → Except String String
  planLoads : String → Except String PlanData

/-- The sequence of fallible steps in the planning try block of
AutoPilot plan task (autopilot.py lines 131-155): any raising step aborts
the whole block. -/
def bedrockCall (b : BedrockBehavior) : Except String PlanData := do
  let body ← b.invoke_model
  let env ← b.envelopeLoads body
  let text ← b.contentText env
  b.planLoads text

/-- The degraded single-step plan built by the planner when Bedrock is
unavailable or the try block raises (autopilot.py lines 124-129 and
176-180). -/
def fallbackPlan (task : String) : TaskPlan :=
  { task := task
    steps := [{ action := "execute", value := some task }]
    estimated_duration := 30.0 }

/-- AutoPilot plan task (autopilot.py lines 110-180).  bedrock = none means
the Bedrock client could not be initialised.  On a successful LLM round
trip the plan fields are filled with .get defaults; every failure path
yields the fallback plan.  The function is total: it never raises. -/
def planTask (bedrock : Option BedrockBehavior) (task : String) : TaskPlan :=
  match bedrock with
  | none => fallbackPlan task
  | some b =>
    match bedrockCall b with
    | .error _ => fallbackPlan task
    | .ok pd =>
      { task := task
        steps := (pd.steps.getD []).map (fun s =>
          { action := s.action.getD "", target := s.target, value := s.value })
        estimated_duration := pd.estimated_duration.getD 30.0
        requires_auth := pd.requires_auth.getD false
        human_review_needed := pd.human_review_needed.getD false }

/-- Behavior of a session handle as used by AutoPilot.extract: whether the
handle has an act_get attribute, and the two extraction calls. -/
structure ExtractSession where
  hasActGet : Bool
  act_get : String → Except String Val
  act : String → Except String Val

/-- Collaborator behavior for one call to AutoPilot.extract: session
opening, json.loads applied to a reply that arrives as a string, and
jsonschema.validate (a failing load of the jsonschema module is folded
into a raising validate). -/
structure ExtractBehavior where
  openSession : Except String ExtractSession
  jsonLoads : String → Except String Val
  validate : Val → Val → Except String Unit

/-- The data-obtaining step of AutoPilot.extract (autopilot.py lines
266-273): act_get when available, otherwise act with the JSON instruction
suffix, parsing the reply with json.loads only when it is a string. -/
def extractData (beh : ExtractBehavior) (sess : ExtractSession)
    (task : String) : Except String Val :=
  if sess.hasActGet then sess.act_get task
  else
    match sess.act (task ++ ". Return the result as JSON.") with
    | .error e => .error e
    | .ok raw =>
      match raw with
      | .str s => beh.jsonLoads s
      | v => .ok v

/-- AutoPilot.extract (autopilot.py lines 245-293).  schema is the optional
schema argument; a supplied schema is validated only when it is truthy
(Python if schema, so an empty dict skips validation).  Validation failure
sets schema_validated to false and leaves success untouched; any exception
escaping session opening or data extraction becomes the error field. -/
def extract (beh : ExtractBehavior) (task : String)
    (starting_url : Option String) (schema : Option Val) : ExtractResult :=
  let res : ExtractResult := { success := false, source_url := starting_url }
  match beh.openSession with
  | .error e => { res with error := some e }
  | .ok sess =>
    match extractData beh sess task with
    | .error e => { res with error := some e }
    | .ok data =>
      let res1 : ExtractResult := { res with data := data, success := true }
      match schema with
      | none => res1
      | some sch =>
        if sch.truthy then
          match beh.validate data sch with
          | .ok _ => { res1 with schema_validated := true }
          | .error _ => { res1 with schema_validated := false }
        else res1

/-- The loop body of AutoPilot.chain (autopilot.py lines 317-327): execute
each task (capture_screenshots defaults to true), append its result, bump
the completed or failed counter, clear success on failure, and break at
the first failure when stop_on_failure holds. -/
def chainLoop (cfg : AutoPilotCfg) (stop_on_failure : Bool) :
    List (String × ExecBehavior) → ChainResult → ChainResult
  | [], acc => acc
  | tb :: rest, acc =>
    let tr := execute cfg tb.2 tb.1 true
    let acc1 : ChainResult := { acc with results := acc.results ++ [tr] }
    if tr.success then
      chainLoop cfg stop_on_failure rest
        { acc1 with tasks_completed := acc1.tasks_completed + 1 }
    else
      let acc2 : ChainResult :=
        { acc1 with tasks_failed := acc1.tasks_failed + 1, success := false }
      if stop_on_failure then acc2
      else chainLoop cfg stop_on_failure rest acc2

/-- AutoPilot.chain (autopilot.py lines 295-330).  Each list entry pairs a
task string with the collaborator behavior its execute call encounters.
The accumulator starts as ChainResult(success=True). -/
def chain (cfg : AutoPilotCfg) (tasks : List (String × ExecBehavior))
    (stop_on_failure : Bool) : ChainResult :=
  chainLoop cfg stop_on_failure tasks { success := true }

/-- A session handle whose act call raises on every attempt, with message
boom, whose screenshot call also raises, and whose teardown succeeds. -/
def failSession : SessionHandle :=
  { act := fun _ _ => .error "boom"
    screenshot := .error "no screenshot"
    stop := .ok () }

/-- Execute-call behavior: planning yields the fallback plan, the session
opens, and every act attempt fails. -/
def failBeh : ExecBehavior :=
  { planOut := .ok (fallbackPlan "t"), openSession := .ok failSession }

/-- A session handle whose act call raises boom on every attempt and whose
stop hook raises at session teardown with message stop boom. -/
def stopFailSession : SessionHandle :=
  { act := fun _ _ => .error "boom"
    screenshot := .error "no screenshot"
    stop := .error "stop boom" }

/-- Execute-call behavior: planning yields the fallback plan, the session
opens, every act attempt fails, and the teardown raises as well. -/
def stopFailBeh : ExecBehavior :=
  { planOut := .ok (fallbackPlan "t"), openSession := .ok stopFailSession }

/-- A session handle mirroring MockNovaSession: act returns the mock status
dict, screenshot returns an empty (falsy) byte string, and the stop hook
is a no-op. -/
def mockSession : SessionHandle :=
  { act := fun t _ => .ok (.obj [("status", .str "mock"), ("task", .str t)])
    screenshot := .ok (.bytes [])
    stop := .ok () }

/-- Execute-call behavior: planning yields the fallback plan, the session
opens as the mock session, and act succeeds. -/
def mockBeh : ExecBehavior :=
  { planOut := .ok (fallbackPlan "t"), openSession := .ok mockSession }

/-- Execute-call behavior in which planning itself raises. -/
def planFailBeh : ExecBehavior :=
  { planOut := .error "plan boom", openSession := .ok mockSession }

/-- An extraction session with a structured act_get capability that returns
an empty dict. -/
def mockExtractSession : ExtractSession :=
  { hasActGet := true
    act_get := fun _ => .ok (.obj [])
    act := fun _ => .ok .null }

/-- Extract-call behavior in which the session opens, extraction succeeds
and schema validation raises a ValidationError. -/
def badSchemaBeh : ExtractBehavior :=
  { openSession := .ok mockExtractSession
    jsonLoads := fun _ => .ok .null
    validate := fun _ _ => .error "schema mismatch" }

/-- A truthy (non-empty dict) JSON schema value. -/
def sampleSchema : Val := .obj [("type", .str "object")]

theorem onSuccess_success (sess : SessionHandle) (plan : TaskPlan) (cap : Bool)
    (v : Val) (res : TaskResult) :
    (onSuccess sess plan cap v res).success = true := by
  unfold onSuccess
  split
  · split
    · split <;> rfl
    · rfl
  · rfl

theorem onSuccess_error (sess : SessionHandle) (plan : TaskPlan) (cap : Bool)
    (v : Val) (res : TaskResult) :
    (onSuccess sess plan cap v res).error = res.error := by
  unfold onSuccess
  split
  · split
    · split <;> rfl
    · rfl
  · rfl

/-- When every act attempt fails, the loop makes one call per remaining
iteration and records exactly the message of the final attempt. -/
theorem actLoop_allFail (sess : SessionHandle) (task : String) (plan : TaskPlan)
    (cap : Bool) (m : Nat → String)
    (hf : ∀ k, sess.act task k = .error (m k)) :
    ∀ (rest attempt : Nat) (res : TaskResult),
      actLoop sess task plan cap attempt (rest + 1) res =
        ({ res with error := some (m (attempt + rest)) }, rest + 1) := by
  intro rest
  induction rest with
  | zero =>
    intro attempt res
    simp [actLoop, hf attempt]
  | succ r ih =>
    intro attempt res
    have hstep : actLoop sess task plan cap attempt (r + 1 + 1) res
        = ((actLoop sess task plan cap (attempt + 1) (r + 1) res).1,
           (actLoop sess task plan cap (attempt + 1) (r + 1) res).2 + 1) := by
      conv_lhs => rw [actLoop]
      rw [hf attempt]
      simp
    rw [hstep, ih (attempt + 1)]
    have h1 : attempt + 1 + r = attempt + (r + 1) := by omega
    rw [h1]

/-- If the loop starts from a record with no error, any successful outcome
still carries no error: the error field is written only on the terminal
failing attempt, after which no attempt can succeed. -/
theorem actLoop_success_error_none (sess : SessionHandle) (task : String)
    (plan : TaskPlan) (cap : Bool) :
    ∀ (rest attempt : Nat) (res : TaskResult), res.error = none →
      res.success = false →
      (actLoop sess task plan cap attempt rest res).1.success = true →
      (actLoop sess task plan cap attempt rest res).1.error = none := by
  intro rest
  induction rest with
  | zero =>
    intro attempt res he _ _
    simpa [actLoop] using he
  | succ r ih =>
    intro attempt res he hs hsucc
    rcases hact : sess.act task attempt with e | v
    · by_cases hr : r = 0
      · subst hr
        simp only [actLoop, hact] at hsucc
        simp [hs] at hsucc
      · simp only [actLoop, hact, if_neg hr] at hsucc ⊢
        exact ih (attempt + 1) res he hs hsucc
    · simp only [actLoop, hact]
      rw [onSuccess_error]
      exact he

/-- If the loop runs at least one attempt from a clean record and the
final outcome is a failure, the error field holds some message of a
failing act attempt; with non-empty messages it is non-empty. -/
theorem actLoop_fail_error_nonempty (sess : SessionHandle) (task : String)
    (plan : TaskPlan) (cap : Bool)
    (hne : ∀ k e, sess.act task k = .error e → e ≠ "") :
    ∀ (rest attempt : Nat) (res : TaskResult), res.error = none →
      res.success = false → 1 ≤ rest →
      (actLoop sess task plan cap attempt rest res).1.success = false →
      ∃ e, (actLoop sess task plan cap attempt rest res).1.error = some e ∧
        e ≠ "" := by
  intro rest
  induction rest with
  | zero =>
    intro attempt res _ _ hrest
    omega
  | succ r ih =>
    intro attempt res he hs _ hfail
    rcases hact : sess.act task attempt with e | v
    · by_cases hr : r = 0
      · subst hr
        simp only [actLoop, hact]
        exact ⟨e, by simp, hne attempt e hact⟩
      · simp only [actLoop, hact, if_neg hr] at hfail ⊢
        exact ih (attempt + 1) res he hs (by omega) hfail
    · simp only [actLoop, hact] at hfail
      rw [onSuccess_success] at hfail
      simp at hfail

/-- chainLoop preserves the count invariant relative to its accumulator:
the increase of tasks_completed plus tasks_failed equals the number of
results appended. -/
theorem chainLoop_counts (cfg : AutoPilotCfg) (stop : Bool) :
    ∀ (bs : List (String × ExecBehavior)) (acc : ChainResult),
      (chainLoop cfg stop bs acc).tasks_completed
        + (chainLoop cfg stop bs acc).tasks_failed
        + acc.results.length
      = (chainLoop cfg stop bs acc).results.length
        + acc.tasks_completed + acc.tasks_failed := by
  intro bs
  induction bs with
  | nil =>
    intro acc
    simp only [chainLoop]
    omega
  | cons tb rest ih =>
    intro acc
    by_cases hsucc : (execute cfg tb.2 tb.1 true).success = true
    · have h := ih
        { acc with
          results := acc.results ++ [execute cfg tb.2 tb.1 true],
          tasks_completed := acc.tasks_completed + 1 }
      simp only [chainLoop, if_pos hsucc]
      simp at h ⊢
      omega
    · simp only [chainLoop, if_neg hsucc]
      cases stop with
      | true =>
        simp
        omega
      | false =>
        have h := ih
          { acc with
            results := acc.results ++ [execute cfg tb.2 tb.1 true],
            tasks_failed := acc.tasks_failed + 1, success := false }
        simp at h ⊢
        omega

/-- With stop_on_failure false, chainLoop appends one result per task. -/
theorem chainLoop_len_noStop (cfg : AutoPilotCfg) :
    ∀ (bs : List (String × ExecBehavior)) (acc : ChainResult),
      (chainLoop cfg false bs acc).results.length
        = acc.results.length + bs.length := by
  intro bs
  induction bs with
  | nil =>
    intro acc
    simp [chainLoop]
  | cons tb rest ih =>
    intro acc
    by_cases hsucc : (execute cfg tb.2 tb.1 true).success = true
    · simp only [chainLoop, if_pos hsucc]
      rw [ih]
      simp
      omega
    · simp only [chainLoop, if_neg hsucc]
      simp only [Bool.false_eq_true, if_false]
      rw [ih]
      simp
      omega

/-- With stop_on_failure true, a run whose tasks succeed up to the first
failing task accumulates one completed count per preceding task, one
failed count, and one result per executed task, then halts. -/
theorem chainLoop_firstFail (cfg : AutoPilotCfg) :
    ∀ (pre : List (String × ExecBehavior)) (tb : String × ExecBehavior)
      (post : List (String × ExecBehavior)) (acc : ChainResult),
      (∀ x ∈ pre, (execute cfg x.2 x.1 true).success = true) →
      (execute cfg tb.2 tb.1 true).success = false →
      (chainLoop cfg true (pre ++ tb :: post) acc).tasks_completed
          = acc.tasks_completed + pre.length ∧
      (chainLoop cfg true (pre ++ tb :: post) acc).tasks_failed
          = acc.tasks_failed + 1 ∧
      (chainLoop cfg true (pre ++ tb :: post) acc).results.length
          = acc.results.length + pre.length + 1 := by
  intro pre
  induction pre with
  | nil =>
    intro tb post acc _ hfail
    simp only [List.nil_append, chainLoop, hfail]
    simp
  | cons x pre ih =>
    intro tb post acc hpre hfail
    have hx : (execute cfg x.2 x.1 true).success = true :=
      hpre x (List.mem_cons_self x pre)
    have h := ih tb post
      { acc with
        results := acc.results ++ [execute cfg x.2 x.1 true],
        tasks_completed := acc.tasks_completed + 1 }
      (fun y hy => hpre y (List.mem_cons_of_mem x hy)) hfail
    simp only [List.cons_append, chainLoop, if_pos hx]
    simp at h ⊢
    omega

/-- C1, counterexample: the claim says success=false implies a non-empty
error string, but an AutoPilot constructed with max_retries=0 skips the
attempt loop entirely and returns success=false with error=None. -/
theorem c1_counterexample :
    (execute { max_retries := 0 } mockBeh "t" true).success = false ∧
    (execute { max_retries := 0 } mockBeh "t" true).error = none :=
  ⟨rfl, rfl⟩

/-- C1 (amended): for every task and collaborator behavior, provided the
session teardown does not raise, success=true implies the error field is
unset; and provided max_retries is at least 1 and every exception raised
by the planner, the session opening, the act attempts or the session
teardown has a non-empty message, success=false implies the error field
is a non-empty string. -/
theorem c1_error_discipline (cfg : AutoPilotCfg) (beh : ExecBehavior)
    (task : String) (cap : Bool) :
    ((∀ sess, beh.openSession = .ok sess → sess.stop = .ok ()) →
      (execute cfg beh task cap).success = true →
      (execute cfg beh task cap).error = none) ∧
    (1 ≤ cfg.max_retries →
      (∀ e, beh.planOut = .error e → e ≠ "") →
      (∀ e, beh.openSession = .error e → e ≠ "") →
      (∀ sess, beh.openSession = .ok sess →
        (∀ k e, sess.act task k = .error e → e ≠ "") ∧
        (∀ e, sess.stop = .error e → e ≠ "")) →
      (execute cfg beh task cap).success = false →
      ∃ e, (execute cfg beh task cap).error = some e ∧ e ≠ "") := by
  constructor
  · intro hstopOk hsucc
    rcases hp : beh.planOut with e | plan
    · simp [execute, executeInstr, hp] at hsucc
    · rcases hs : beh.openSession with e | sess
      · simp [execute, executeInstr, hp, hs] at hsucc
      · have hst := hstopOk sess hs
        simp only [execute, executeInstr, hp, hs, hst] at hsucc ⊢
        exact actLoop_success_error_none sess task plan cap cfg.max_retries 0
          { success := false } rfl rfl hsucc
  · intro hN hplanNE hopenNE hsessNE hfail
    rcases hp : beh.planOut with e | plan
    · refine ⟨e, ?_, hplanNE e hp⟩
      simp [execute, executeInstr, hp]
    · rcases hs : beh.openSession with e | sess
      · refine ⟨e, ?_, hopenNE e hs⟩
        simp [execute, executeInstr, hp, hs]
      · rcases hstop : sess.stop with e | u
        · refine ⟨e, ?_, (hsessNE sess hs).2 e hstop⟩
          simp [execute, executeInstr, hp, hs, hstop]
        · simp only [execute, executeInstr, hp, hs, hstop] at hfail ⊢
          exact actLoop_fail_error_nonempty sess task plan cap
            ((hsessNE sess hs).1) cfg.max_retries 0 { success := false }
            rfl rfl hN hfail

/-- C1 witness: with one retry, a clean teardown and a session whose only
attempt raises with message boom, the failed result carries the non-empty
error boom. -/
theorem c1_witness :
    ∃ e, (execute { max_retries := 1 } failBeh "t" true).error = some e ∧
      e ≠ "" :=
  (c1_error_discipline { max_retries := 1 } failBeh "t" true).2
    (by decide)
    (fun e he => by simp [failBeh] at he)
    (fun e he => by simp [failBeh] at he)
    (fun sess hsess => by
      simp only [failBeh] at hsess
      cases hsess
      constructor
      · intro k e he
        simp [failSession] at he
        subst he
        decide
      · intro e he
        simp [failSession] at he)
    rfl

/-- C2, counterexample: with max_retries = 1 and the single act attempt
raising boom, a teardown that raises stop boom at with-exit overwrites
the message recorded by the final attempt, so the returned error is
stop boom rather than the final act message boom required by the claim. -/
theorem c2_counterexample :
    stopFailSession.act "t" 0 = .error "boom" ∧
    execActCalls { max_retries := 1 } stopFailBeh "t" true = 1 ∧
    (execute { max_retries := 1 } stopFailBeh "t" true).success = false ∧
    (execute { max_retries := 1 } stopFailBeh "t" true).error
      = some "stop boom" ∧
    (execute { max_retries := 1 } stopFailBeh "t" true).error ≠ some "boom" :=
  ⟨rfl, rfl, rfl, rfl, by decide⟩

/-- C2 (amended): with max_retries = N, N at least 1, a plan, an open
session and an act call that fails on every attempt with message m k on
attempt k, execute makes exactly N act calls and returns a failed result;
provided the session teardown does not raise, its error equals the
message of the final (N-th) attempt. -/
theorem c2_retry_exhaustion (cfg : AutoPilotCfg) (beh : ExecBehavior)
    (task : String) (plan : TaskPlan) (sess : SessionHandle) (m : Nat → String)
    (hN : 1 ≤ cfg.max_retries)
    (hp : beh.planOut = .ok plan) (hs : beh.openSession = .ok sess)
    (hstop : sess.stop = .ok ())
    (hf : ∀ k, sess.act task k = .error (m k)) :
    execActCalls cfg beh task true = cfg.max_retries ∧
    (execute cfg beh task true).success = false ∧
    (execute cfg beh task true).error = some (m (cfg.max_retries - 1)) := by
  obtain ⟨r, hr⟩ : ∃ r, cfg.max_retries = r + 1 := ⟨cfg.max_retries - 1, by omega⟩
  have hall := actLoop_allFail sess task plan true m hf r 0 { success := false }
  simp [execute, execActCalls, executeInstr, hp, hs, hstop, hr, hall]

/-- C2 witness: max_retries = 2, a clean teardown and every attempt raising
boom yields two act calls and error boom. -/
theorem c2_witness :
    execActCalls { max_retries := 2 } failBeh "t" true = 2 ∧
    (execute { max_retries := 2 } failBeh "t" true).success = false ∧
    (execute { max_retries := 2 } failBeh "t" true).error = some "boom" :=
  c2_retry_exhaustion { max_retries := 2 } failBeh "t" (fallbackPlan "t")
    failSession (fun _ => "boom") (by decide) rfl rfl rfl (fun _ => rfl)

/-- C3: execute is a total function: for every task and every collaborator
behavior (the planning outcome and the session opening may both raise) it
returns exactly one TaskResult and never raises; an exception escaping
planning or session opening is converted into the error field of a failed
result.  Exceptions inside the attempt loop never escape it: the loop
either succeeds or records the message of the final attempt (the latter fact is
the subject of the retry theorem for C2). -/
theorem c3_never_raises (cfg : AutoPilotCfg) (beh : ExecBehavior)
    (task : String) (cap : Bool) :
    (∃! r : TaskResult, execute cfg beh task cap = r) ∧
    (∀ e, beh.planOut = .error e →
      (execute cfg beh task cap).success = false ∧
      (execute cfg beh task cap).error = some e) ∧
    (∀ plan e, beh.planOut = .ok plan → beh.openSession = .error e →
      (execute cfg beh task cap).success = false ∧
      (execute cfg beh task cap).error = some e) := by
  refine ⟨⟨execute cfg beh task cap, rfl, fun y hy => hy.symm⟩, ?_, ?_⟩
  · intro e hp
    constructor <;> simp [execute, executeInstr, hp]
  · intro plan e hp hs
    constructor <;> simp [execute, executeInstr, hp, hs]

/-- C3 witness: a raising planner is converted into a failed result whose
error is the message of the planner. -/
theorem c3_witness :
    (execute {} planFailBeh "t" true).success = false ∧
    (execute {} planFailBeh "t" true).error = some "plan boom" :=
  (c3_never_raises {} planFailBeh "t" true).2.1 "plan boom" rfl

/-- C4: chaining with stop_on_failure=true, when the tasks before the
1-indexed position i all succeed and the task at position i is the first
to fail, yields tasks_completed = i-1, tasks_failed = 1 and exactly i
entries in results. -/
theorem c4_stop_on_first_failure (cfg : AutoPilotCfg)
    (pre post : List (String × ExecBehavior)) (tb : String × ExecBehavior)
    (i : Nat) (hi : i = pre.length + 1)
    (hpre : ∀ x ∈ pre, (execute cfg x.2 x.1 true).success = true)
    (hfail : (execute cfg tb.2 tb.1 true).success = false) :
    (chain cfg (pre ++ tb :: post) true).tasks_completed = i - 1 ∧
    (chain cfg (pre ++ tb :: post) true).tasks_failed = 1 ∧
    (chain cfg (pre ++ tb :: post) true).results.length = i := by
  have h := chainLoop_firstFail cfg pre tb post { success := true } hpre hfail
  subst hi
  simp only [chain]
  simp at h
  omega

/-- C4 witness: in a three-task chain whose second task is the first to
fail, one task completes, one fails, and two results are recorded. -/
theorem c4_witness :
    (chain {} [("a", mockBeh), ("b", failBeh), ("c", mockBeh)] true).tasks_completed
      = 2 - 1 ∧
    (chain {} [("a", mockBeh), ("b", failBeh), ("c", mockBeh)] true).tasks_failed
      = 1 ∧
    (chain {} [("a", mockBeh), ("b", failBeh), ("c", mockBeh)] true).results.length
      = 2 :=
  c4_stop_on_first_failure {} [("a", mockBeh)] [("c", mockBeh)] ("b", failBeh) 2
    rfl
    (fun x hx => by
      rw [List.mem_singleton] at hx
      subst hx
      rfl)
    rfl

/-- C5: every ChainResult returned by chain satisfies
tasks_completed + tasks_failed = number of results; and with
stop_on_failure=false a chain of k tasks records exactly k results with
tasks_completed + tasks_failed = k. -/
theorem c5_count_invariant :
    (∀ (cfg : AutoPilotCfg) (tasks : List (String × ExecBehavior)) (stop : Bool),
      (chain cfg tasks stop).tasks_completed + (chain cfg tasks stop).tasks_failed
        = (chain cfg tasks stop).results.length) ∧
    (∀ (cfg : AutoPilotCfg) (tasks : List (String × ExecBehavior)),
      (chain cfg tasks false).results.length = tasks.length ∧
      (chain cfg tasks false).tasks_completed + (chain cfg tasks false).tasks_failed
        = tasks.length) := by
  have hA : ∀ (cfg : AutoPilotCfg) (stop : Bool)
      (tasks : List (String × ExecBehavior)),
      (chain cfg tasks stop).tasks_completed + (chain cfg tasks stop).tasks_failed
        = (chain cfg tasks stop).results.length := by
    intro cfg stop tasks
    have h := chainLoop_counts cfg stop tasks { success := true }
    simp only [chain]
    simp at h
    omega
  refine ⟨fun cfg tasks stop => hA cfg stop tasks, fun cfg tasks => ?_⟩
  have hlen := chainLoop_len_noStop cfg tasks { success := true }
  have h := hA cfg false tasks
  simp only [chain] at h ⊢
  simp at hlen
  exact ⟨hlen, by omega⟩

/-- C6: all_succeeded is true exactly when tasks_failed = 0 and
tasks_completed > 0, and in particular it is false on the result of
chaining an empty task list. -/
theorem c6_all_succeeded :
    (∀ c : ChainResult, c.all_succeeded = true ↔
      (c.tasks_failed = 0 ∧ 0 < c.tasks_completed)) ∧
    (∀ (cfg : AutoPilotCfg) (stop : Bool),
      (chain cfg [] stop).all_succeeded = false) := by
  constructor
  · intro c
    simp [ChainResult.all_succeeded]
  · intro cfg stop
    rfl

/-- C7: the planner is a total function (it never raises), and whenever
the LLM backend is unavailable or any step of the LLM round trip fails,
it returns the single-step fallback plan with action execute, value the
task string, estimated_duration 30.0 and both boolean flags false. -/
theorem c7_planner_fallback (task : String) (bedrock : Option BedrockBehavior)
    (h : bedrock = none ∨ ∃ b, bedrock = some b ∧ ∃ e, bedrockCall b = .error e) :
    planTask bedrock task = fallbackPlan task ∧
    (planTask bedrock task).steps
      = [{ action := "execute", value := some task }] ∧
    (planTask bedrock task).estimated_duration = 30.0 ∧
    (planTask bedrock task).requires_auth = false ∧
    (planTask bedrock task).human_review_needed = false := by
  have heq : planTask bedrock task = fallbackPlan task := by
    rcases h with h | ⟨b, hb, e, he⟩
    · rw [h]
      rfl
    · rw [hb]
      simp [planTask, he]
  rw [heq]
  exact ⟨rfl, rfl, rfl, rfl, rfl⟩

/-- C7 witness: with no LLM backend the planner returns the fallback
single-step plan. -/
theorem c7_witness :
    planTask none "go" = fallbackPlan "go" ∧
    (planTask none "go").steps = [{ action := "execute", value := some "go" }] ∧
    (planTask none "go").estimated_duration = 30.0 ∧
    (planTask none "go").requires_auth = false ∧
    (planTask none "go").human_review_needed = false :=
  c7_planner_fallback "go" none (Or.inl rfl)

/-- C8: when extraction succeeds but the supplied (truthy) schema rejects
the data, the result has success=true and schema_validated=false; and
schema_validated can be true only when a schema was supplied, extraction
succeeded and validation passed. -/
theorem c8_schema_validated_flag :
    (∀ (beh : ExtractBehavior) (task : String) (url : Option String)
       (sch : Val) (sess : ExtractSession) (data : Val),
      beh.openSession = .ok sess →
      extractData beh sess task = .ok data →
      sch.truthy = true →
      (∃ e, beh.validate data sch = .error e) →
      (extract beh task url (some sch)).success = true ∧
      (extract beh task url (some sch)).schema_validated = false) ∧
    (∀ (beh : ExtractBehavior) (task : String) (url : Option String)
       (schema : Option Val),
      (extract beh task url schema).schema_validated = true →
      ∃ (sch : Val) (sess : ExtractSession) (data : Val),
        schema = some sch ∧ beh.openSession = .ok sess ∧
        extractData beh sess task = .ok data ∧
        beh.validate data sch = .ok ()) := by
  constructor
  · intro beh task url sch sess data hs hd ht hv
    obtain ⟨e, he⟩ := hv
    constructor <;> simp [extract, hs, hd, ht, he]
  · intro beh task url schema h
    rcases ho : beh.openSession with e | sess
    · simp [extract, ho] at h
    · rcases hd : extractData beh sess task with e | data
      · simp [extract, ho, hd] at h
      · rcases schema with _ | sch
        · simp [extract, ho, hd] at h
        · by_cases ht : sch.truthy = true
          · rcases hv : beh.validate data sch with e | u
            · simp [extract, ho, hd, ht, hv] at h
            · exact ⟨sch, sess, data, rfl, rfl, hd, by rw [hv]⟩
          · simp [extract, ho, hd, ht] at h

/-- C8 witness: a successful mock extraction with a truthy schema whose
validation raises yields success=true and schema_validated=false. -/
theorem c8_witness :
    (extract badSchemaBeh "x" (some "u") (some sampleSchema)).success = true ∧
    (extract badSchemaBeh "x" (some "u") (some sampleSchema)).schema_validated
      = false :=
  c8_schema_validated_flag.1 badSchemaBeh "x" (some "u") sampleSchema
    mockExtractSession (.obj []) rfl rfl rfl ⟨"schema mismatch", rfl⟩

/-- C9: chaining an empty task list returns
ChainResult(success=True, results=[], tasks_completed=0, tasks_failed=0),
on which the derived all_succeeded predicate is false. -/
theorem c9_empty_chain (cfg : AutoPilotCfg) (stop : Bool) :
    (chain cfg [] stop).success = true ∧
    (chain cfg [] stop).results = [] ∧
    (chain cfg [] stop).tasks_completed = 0 ∧
    (chain cfg [] stop).tasks_failed = 0 ∧
    (chain cfg [] stop).all_succeeded = false :=
  ⟨rfl, rfl, rfl, rfl, rfl⟩

/-- C10, counterexample: with max_retries=0, planning and session opening
succeeding, a teardown that raises stop boom still reaches the outer
except of execute, so the returned error is set rather than the None the
claim asserts (the zero act calls and success=False parts do hold). -/
theorem c10_counterexample :
    execActCalls { max_retries := 0 } stopFailBeh "t" true = 0 ∧
    (execute { max_retries := 0 } stopFailBeh "t" true).success = false ∧
    (execute { max_retries := 0 } stopFailBeh "t" true).error
      = some "stop boom" :=
  ⟨rfl, rfl, rfl⟩

/-- C10 (amended): with max_retries=0 and collaborators that plan, open a
session and tear it down normally, execute makes no act call at all and
returns a TaskResult with success=False, error=None and an empty
steps_taken list. -/
theorem c10_zero_retries_no_attempt (cfg : AutoPilotCfg) (beh : ExecBehavior)
    (task : String) (cap : Bool) (plan : TaskPlan) (sess : SessionHandle)
    (h0 : cfg.max_retries = 0)
    (hp : beh.planOut = .ok plan) (hs : beh.openSession = .ok sess)
    (hstop : sess.stop = .ok ()) :
    execActCalls cfg beh task cap = 0 ∧
    (execute cfg beh task cap).success = false ∧
    (execute cfg beh task cap).error = none ∧
    (execute cfg beh task cap).steps_taken = [] := by
  simp [execute, execActCalls, executeInstr, hp, hs, hstop, h0, actLoop]

/-- C10 witness: the mock collaborators (whose stop hook is a no-op) with
max_retries=0 give zero act calls, success=False, error=None and no
steps_taken. -/
theorem c10_witness :
    execActCalls { max_retries := 0 } mockBeh "t" true = 0 ∧
    (execute { max_retries := 0 } mockBeh "t" true).success = false ∧
    (execute { max_retries := 0 } mockBeh "t" true).error = none ∧
    (execute { max_retries := 0 } mockBeh "t" true).steps_taken = [] :=
  c10_zero_retries_no_attempt { max_retries := 0 } mockBeh "t" true
    (fallbackPlan "t") mockSession rfl rfl rfl rfl

end NovaAutopilot
